import Mathlib

/-!
Shallow embedding of the asynchronous command-dispatch and read-command
registry layer of `src/session-handler/addon/pdal-bindings.cpp`.

Conventions of the embedding:
* V8 values are modelled by the inductive `JsVal`; the argument vector of a
  bound function is a `List JsVal`, and a missing argument reads as
  `JsVal.undefined` (V8 semantics of out-of-range `args[i]`).
* `rand()` is modelled as a stream `Nat → Nat`: call number `i` of a given
  scope reads `randStream i`.
* The background/completion protocol of `uv_queue_work` is split into a pure
  work-phase function (taking the engine behaviour — success or a thrown
  fault — as an explicit parameter) and a pure completion-phase function
  returning the observable effects: callback invocations, handle disposal,
  registry erasure, deletions.
* `std::map<std::string, ReadCommand*>` is modelled as a function
  `String → Option ReadCommand`; `m[k] = v` is `registryAssign` and
  `m.erase(k)` is `registryErase`.
* C++ doubles of `RasterMeta` are abstracted as `Int` (no claim below
  depends on real-valued raster arithmetic), and the derived `xNum()`/
  `yNum()` are carried as stored fields, their definition living in the
  header `read-command.hpp` which is not part of the sources.
-/

namespace Greyhound

/-- chunk size used by `ReadCommand::run` (pdal-bindings.cpp line 12). -/
def chunkSize : Nat := 65536

/-- length of a generated read identifier (pdal-bindings.cpp line 13). -/
def readIdSize : Nat := 24

/-- alphabet of a generated read identifier (pdal-bindings.cpp line 14). -/
def hexValues : String := "0123456789ABCDEF"

/-- generateReadId (pdal-bindings.cpp lines 26-36): a string of `readIdSize`
characters, character `i` being `hexValues[rand() % hexValues.size()]`; the
`rand()` calls are modelled by the stream `randStream`.  The string starts as
`readIdSize` copies of the character 0 (the C++ fill constructor), which is
the `getD` default — every index written is in bounds, so the default is
never read. -/
def generateReadId (randStream : Nat → Nat) : String :=
  String.mk ((List.range readIdSize).map
    (fun i => hexValues.toList.getD (randStream i % hexValues.toList.length) '0'))

/-- A V8 value as far as this layer inspects one. -/
inductive JsVal
  | undefined
  | null
  | str (s : String)
  | func (fid : Nat)
  | arr (elems : List JsVal)
  | num (n : Int)

/-- Value::IsString. -/
def JsVal.isString : JsVal → Bool
  | JsVal.str _ => true
  | _ => false

/-- Value::IsFunction. -/
def JsVal.isFunction : JsVal → Bool
  | JsVal.func _ => true
  | _ => false

/-- Value::IsUndefined. -/
def JsVal.isUndefined : JsVal → Bool
  | JsVal.undefined => true
  | _ => false

/-- Value::IsArray. -/
def JsVal.isArray : JsVal → Bool
  | JsVal.arr _ => true
  | _ => false

/-- String::Utf8Value of a value already checked to be a string. -/
def JsVal.strVal : JsVal → String
  | JsVal.str s => s
  | _ => ""

/-- identity of a value already checked to be a function (the persistent
handle made from it is tracked by this id). -/
def JsVal.funcId : JsVal → Nat
  | JsVal.func fid => fid
  | _ => 0

/-- parsePathList (pdal-bindings.cpp lines 38-61): an undefined or non-array
argument yields no paths; from an array, exactly the string elements are
taken, in order. -/
def parsePathList (rawArg : JsVal) : List String :=
  if !rawArg.isUndefined && rawArg.isArray then
    match rawArg with
    | JsVal.arr elems =>
        elems.filterMap (fun v =>
          match v with
          | JsVal.str s => some s
          | _ => none)
    | _ => []
  else []

/-- RasterMeta: origin and step per axis plus the derived per-axis counts.
Doubles are abstracted as `Int`; `xNum()`/`yNum()` are stored fields here
because their defining code is in the missing header. -/
structure RasterMeta where
  xBegin : Int
  xStep : Int
  yBegin : Int
  yStep : Int
  xNumV : Nat
  yNumV : Nat
  deriving DecidableEq, Repr

/-- The observable state of a ReadCommand as pdal-bindings.cpp reads it:
identifier, raster flag, stored error message, counts, raster metadata, and
the persistent callback handle (tracked by id).  The buffer itself is
abstracted to its byte count. -/
structure ReadCommand where
  readId : String
  rasterize : Bool
  errMsg : String
  numPoints : Nat
  numBytes : Nat
  rasterMeta : RasterMeta
  callbackId : Nat
  deriving DecidableEq, Repr

/-- m_readCommands: the registry map, keyed by read identifier. -/
def ReadCommandMap := String → Option ReadCommand

/-- the empty registry (state after the PdalBindings constructor). -/
def emptyReadCommands : ReadCommandMap := fun _ => none

/-- the registration step `m_readCommands[readId] = readCommand`
(pdal-bindings.cpp line 427): `std::map::operator[]` inserts or assigns —
an existing entry under the same key is replaced.  The only failure mode in
the source is an allocation fault rethrown as a runtime error (lines
429-433); there is no duplicate-key check. -/
def registryAssign (m : ReadCommandMap) (id : String) (c : ReadCommand) :
    ReadCommandMap :=
  fun k => if k = id then some c else m k

/-- Modelled from the spec: `ReadCommand::eraseSelf` (declared in the missing
header read-command.hpp) removes the command's own identifier from the
registry under the registry mutex — the spec's `remove(id)`, a no-op when the
identifier is absent. -/
def registryErase (m : ReadCommandMap) (id : String) : ReadCommandMap :=
  fun k => if k = id then none else m k

/-- The engine side of a session, as the spec's opaque PointCloudEngine
capability.  `ready` records whether `initialize` has completed successfully;
the query results are abstract stored values. -/
structure PdalSessionE where
  ready : Bool
  numPointsF : Nat
  schemaF : String
  statsF : String
  srsF : String
  fillsF : List Nat
  deriving DecidableEq, Repr

/-- Modelled from the spec: `PdalSession::getNumPoints` (the engine's source,
pdal-session.cpp, is not under src/).  Each synchronous query requires the
Ready state; a call before Ready is a precondition violation raised as an
exception. -/
def PdalSessionE.getNumPoints (e : PdalSessionE) : Except String Nat :=
  if e.ready then Except.ok e.numPointsF else Except.error "session not ready"

/-- Modelled from the spec: `PdalSession::getSchema`, as `getNumPoints`. -/
def PdalSessionE.getSchema (e : PdalSessionE) : Except String String :=
  if e.ready then Except.ok e.schemaF else Except.error "session not ready"

/-- Modelled from the spec: `PdalSession::getStats`, as `getNumPoints`. -/
def PdalSessionE.getStats (e : PdalSessionE) : Except String String :=
  if e.ready then Except.ok e.statsF else Except.error "session not ready"

/-- Modelled from the spec: `PdalSession::getSrs`, as `getNumPoints`. -/
def PdalSessionE.getSrs (e : PdalSessionE) : Except String String :=
  if e.ready then Except.ok e.srsF else Except.error "session not ready"

/-- Modelled from the spec: `PdalSession::getFills`, as `getNumPoints`. -/
def PdalSessionE.getFills (e : PdalSessionE) : Except String (List Nat) :=
  if e.ready then Except.ok e.fillsF else Except.error "session not ready"

/-- The per-object state a PdalBindings instance carries besides the
registry: `m_pdalSession`, a shared pointer that is null after `reset()`. -/
structure BindingsState where
  pdalSession : Option PdalSessionE
  deriving DecidableEq, Repr

/-- What a synchronous bound call can do for its caller: return a value,
report an error through the normal channel, or fault (a null-handle
dereference, or a C++ exception escaping through the V8 boundary). -/
inductive SyncOutcome (α : Type)
  | ok (value : α)
  | errorReport (msg : String)
  | fault (msg : String)
  deriving DecidableEq, Repr

/-- true exactly on the `errorReport` constructor. -/
def SyncOutcome.isErrorReport {α : Type} : SyncOutcome α → Bool
  | SyncOutcome.errorReport _ => true
  | _ => false

/-- PdalBindings::destroy (pdal-bindings.cpp lines 249-257):
`m_pdalSession.reset()`, nothing else.  A total function: resetting an
already-null shared pointer is well defined. -/
def destroy (s : BindingsState) : BindingsState :=
  { s with pdalSession := none }

/-- PdalBindings::getNumPoints (pdal-bindings.cpp lines 259-265):
`obj->m_pdalSession->getNumPoints()` with no state check and no catch — a
null handle is dereferenced (fault), and an engine exception crosses the V8
boundary uncaught (fault). -/
def getNumPoints (s : BindingsState) : SyncOutcome Nat :=
  match s.pdalSession with
  | none => SyncOutcome.fault "null m_pdalSession dereferenced"
  | some e =>
      match e.getNumPoints with
      | Except.ok v => SyncOutcome.ok v
      | Except.error m => SyncOutcome.fault m

/-- PdalBindings::getSchema (pdal-bindings.cpp lines 267-275), as
`getNumPoints`. -/
def getSchema (s : BindingsState) : SyncOutcome String :=
  match s.pdalSession with
  | none => SyncOutcome.fault "null m_pdalSession dereferenced"
  | some e =>
      match e.getSchema with
      | Except.ok v => SyncOutcome.ok v
      | Except.error m => SyncOutcome.fault m

/-- PdalBindings::getStats (pdal-bindings.cpp lines 277-285), as
`getNumPoints`. -/
def getStats (s : BindingsState) : SyncOutcome String :=
  match s.pdalSession with
  | none => SyncOutcome.fault "null m_pdalSession dereferenced"
  | some e =>
      match e.getStats with
      | Except.ok v => SyncOutcome.ok v
      | Except.error m => SyncOutcome.fault m

/-- PdalBindings::getSrs (pdal-bindings.cpp lines 287-295), as
`getNumPoints`. -/
def getSrs (s : BindingsState) : SyncOutcome String :=
  match s.pdalSession with
  | none => SyncOutcome.fault "null m_pdalSession dereferenced"
  | some e =>
      match e.getSrs with
      | Except.ok v => SyncOutcome.ok v
      | Except.error m => SyncOutcome.fault m

/-- PdalBindings::getFills (pdal-bindings.cpp lines 297-312), as
`getNumPoints`. -/
def getFills (s : BindingsState) : SyncOutcome (List Nat) :=
  match s.pdalSession with
  | none => SyncOutcome.fault "null m_pdalSession dereferenced"
  | some e =>
      match e.getFills with
      | Except.ok v => SyncOutcome.ok v
      | Except.error m => SyncOutcome.fault m

/-- A C++ fault the background work phase can raise: the three catch clauses
of each work lambda distinguish `std::runtime_error` (with its message),
`std::bad_alloc`, and anything else. -/
inductive EngineFault
  | runtimeError (msg : String)
  | badAlloc
  | otherFault
  deriving DecidableEq, Repr

/-- CreateData (declared in the missing header pdal-bindings.hpp; its fields
are exactly those read in pdal-bindings.cpp lines 163-221): the payload of
one initialize task.  The session handle is left implicit — the engine
behaviour enters the work phase as an explicit parameter instead. -/
structure CreateData where
  pipelineId : String
  pipeline : String
  serialPaths : List String
  execute : Bool
  callbackId : Nat
  errMsg : String
  deriving DecidableEq, Repr

/-- Outcome of a synchronous entry point that may schedule background work:
a C++ throw escaping to the caller, a synchronous error callback with no
work scheduled, or a scheduled task with its payload. -/
inductive InitOutcome
  | thrown (msg : String)
  | syncError (callbackId : Nat) (errMsg : String)
  | scheduled (d : CreateData)
  deriving DecidableEq, Repr

/-- PdalBindings::doInitialize, synchronous part (pdal-bindings.cpp lines
128-171): validate `args[0]`/`args[1]` as strings (the second check's
message overwrites the first's), throw on a missing or non-function
`args[3]` callback, report a validation error synchronously through the
callback with no work scheduled, and otherwise schedule the create task
with its payload.  The original messages quote the argument names; the
quotes are elided here. -/
def doInitialize (args : List JsVal) (execute : Bool) : InitOutcome :=
  let a0 := args.getD 0 JsVal.undefined
  let a1 := args.getD 1 JsVal.undefined
  let a3 := args.getD 3 JsVal.undefined
  let errMsg0 : String :=
    if a0.isUndefined || !a0.isString then
      "pipelineId must be a string - args[0]"
    else ""
  let errMsg : String :=
    if a1.isUndefined || !a1.isString then
      "pipeline must be a string - args[1]"
    else errMsg0
  if a3.isUndefined || !a3.isFunction then
    InitOutcome.thrown "Invalid callback supplied to create"
  else if errMsg ≠ "" then
    InitOutcome.syncError a3.funcId errMsg
  else
    InitOutcome.scheduled
      { pipelineId := a0.strVal
        pipeline := a1.strVal
        serialPaths := parsePathList (args.getD 2 JsVal.undefined)
        execute := execute
        callbackId := a3.funcId
        errMsg := "" }

/-- PdalBindings::create (pdal-bindings.cpp lines 228-234). -/
def createEntry (args : List JsVal) : InitOutcome :=
  doInitialize args true

/-- PdalBindings::parse (pdal-bindings.cpp lines 236-247): run
`doInitialize` without execute, then `m_pdalSession.reset()` — unless the
callback check threw, in which case the reset line is never reached and the
state is unchanged. -/
def parseEntry (s : BindingsState) (args : List JsVal) :
    InitOutcome × BindingsState :=
  match doInitialize args false with
  | InitOutcome.thrown m => (InitOutcome.thrown m, s)
  | o => (o, { s with pdalSession := none })

/-- create work phase (pdal-bindings.cpp lines 175-198): run the engine's
pipeline construction; a runtime error stores its message, a bad_alloc
stores the CREATE allocation message, anything else stores "Unknown error".
The engine behaviour is the parameter `engineResult` (`none` = success). -/
def createWork (engineResult : Option EngineFault) (d : CreateData) :
    CreateData :=
  match engineResult with
  | none => d
  | some (EngineFault.runtimeError m) => { d with errMsg := m }
  | some EngineFault.badAlloc =>
      { d with errMsg := "Memory allocation failed in CREATE" }
  | some EngineFault.otherFault => { d with errMsg := "Unknown error" }

/-- Observable effects of a create/serialize completion phase: the list of
callback invocations (each with its single error-message argument, empty =
success), and the three cleanup steps. -/
structure AsyncAfterEffects where
  callbackCalls : List String
  callbackDisposed : Bool
  dataDeleted : Bool
  reqDeleted : Bool
  deriving DecidableEq, Repr

/-- create completion phase (pdal-bindings.cpp lines 199-222): call the
callback once with the stored message, dispose the persistent handle,
delete the payload and the request. -/
def createAfter (d : CreateData) : AsyncAfterEffects :=
  { callbackCalls := [d.errMsg]
    callbackDisposed := true
    dataDeleted := true
    reqDeleted := true }

/-- SerializeData (declared in the missing header; fields as read in
pdal-bindings.cpp lines 340-391). -/
structure SerializeData where
  paths : List String
  callbackId : Nat
  errMsg : String
  deriving DecidableEq, Repr

/-- Outcome of the serialize entry point. -/
inductive SerializeOutcome
  | thrown (msg : String)
  | syncError (callbackId : Nat) (errMsg : String)
  | scheduled (d : SerializeData)
  deriving DecidableEq, Repr

/-- PdalBindings::serialize, synchronous part (pdal-bindings.cpp lines
314-343): `errMsg` starts empty and is never written before its check, so
the synchronous-error branch is unreachable; a missing or non-function
`args[1]` callback throws; otherwise the serialize task is scheduled. -/
def serializeEntry (args : List JsVal) : SerializeOutcome :=
  let errMsg : String := ""
  let a1 := args.getD 1 JsVal.undefined
  if a1.isUndefined || !a1.isFunction then
    SerializeOutcome.thrown "Invalid callback supplied to serialize"
  else if errMsg ≠ "" then
    SerializeOutcome.syncError a1.funcId errMsg
  else
    SerializeOutcome.scheduled
      { paths := parsePathList (args.getD 0 JsVal.undefined)
        callbackId := a1.funcId
        errMsg := "" }

/-- serialize work phase (pdal-bindings.cpp lines 347-367), as `createWork`
with the SERIALIZE allocation message. -/
def serializeWork (engineResult : Option EngineFault) (sd : SerializeData) :
    SerializeData :=
  match engineResult with
  | none => sd
  | some (EngineFault.runtimeError m) => { sd with errMsg := m }
  | some EngineFault.badAlloc =>
      { sd with errMsg := "Memory allocation failed in SERIALIZE" }
  | some EngineFault.otherFault => { sd with errMsg := "Unknown error" }

/-- serialize completion phase (pdal-bindings.cpp lines 368-392), shaped
exactly like the create completion. -/
def serializeAfter (sd : SerializeData) : AsyncAfterEffects :=
  { callbackCalls := [sd.errMsg]
    callbackDisposed := true
    dataDeleted := true
    reqDeleted := true }

/-- read work phase (pdal-bindings.cpp lines 444-461): run
`readCommand->run()`; a runtime error stores its message on the command;
any other fault — the read work has no dedicated bad_alloc clause — stores
"Unknown error".  `runResult` is the behaviour of the missing `run()`:
either the command as `run()` leaves it, or a thrown fault. -/
def readWork (runResult : Except EngineFault ReadCommand) (c : ReadCommand) :
    ReadCommand :=
  match runResult with
  | Except.ok c2 => c2
  | Except.error (EngineFault.runtimeError m) => { c with errMsg := m }
  | Except.error EngineFault.badAlloc => { c with errMsg := "Unknown error" }
  | Except.error EngineFault.otherFault => { c with errMsg := "Unknown error" }

/-- One invocation of a read callback: the error shape, the 11-argument
rastered success shape, or the 5-argument raw success shape. -/
inductive ReadDelivery
  | errorArgs (msg : String)
  | rasteredArgs (id : String) (numPoints : Nat) (numBytes : Nat)
      (meta : RasterMeta)
  | rawArgs (id : String) (numPoints : Nat) (numBytes : Nat)
  deriving DecidableEq, Repr

/-- Observable effects of the read completion phase: callback invocations in
order, whether `eraseSelf`/`delete readCommand` ran, whether the persistent
callback handle was disposed, and whether the request was freed. -/
structure ReadAfterEffects where
  delivery : List ReadDelivery
  erasedSelf : Bool
  commandDeleted : Bool
  callbackDisposed : Bool
  reqDeleted : Bool
  deriving DecidableEq, Repr

/-- Modelled from the spec: `errorCallback` (its body lives in the
read-command code absent from src/) delivers the error message through the
stored callback and releases the persistent callback handle — per the
spec's words, the completion callback handle is released exactly once
regardless of branch, and resource cleanup including callback release
executes on every path. -/
def errorCallbackDisposes : Bool := true

/-- read completion phase (pdal-bindings.cpp lines 463-556).  Error branch
(nonempty stored message): `errorCallback`, `eraseSelf`, `delete
readCommand`, early return — the request is not freed (the `delete readReq`
at line 555 is skipped), and the handle release inside `errorCallback` is
the spec-modelled `errorCallbackDisposes`.  Success branch: one callback
invocation with the rastered 11-argument or raw 5-argument payload (the
`reinterpret_cast` null check on the rastered side can never fail on a
non-null pointer, so the "Invalid ReadCommand" branch is dead), then the
handle is disposed and the request freed — the command is neither erased
from the registry nor deleted. -/
def readAfterWork (c : ReadCommand) : ReadAfterEffects :=
  if c.errMsg ≠ "" then
    { delivery := [ReadDelivery.errorArgs c.errMsg]
      erasedSelf := true
      commandDeleted := true
      callbackDisposed := errorCallbackDisposes
      reqDeleted := false }
  else if c.rasterize then
    { delivery :=
        [ReadDelivery.rasteredArgs c.readId c.numPoints c.numBytes
          c.rasterMeta]
      erasedSelf := false
      commandDeleted := false
      callbackDisposed := true
      reqDeleted := true }
  else
    { delivery := [ReadDelivery.rawArgs c.readId c.numPoints c.numBytes]
      erasedSelf := false
      commandDeleted := false
      callbackDisposed := true
      reqDeleted := true }

/-- The registry as the read completion leaves it: erased at the command's
identifier exactly when the completion ran `eraseSelf`. -/
def readCommandsAfterDelivery (m : ReadCommandMap) (c : ReadCommand) :
    ReadCommandMap :=
  if (readAfterWork c).erasedSelf then registryErase m c.readId else m

/-- What the synchronous part of PdalBindings::read leaves behind: the V8
return value handed to the caller, the registry, and the command whose work
was scheduled (if any). -/
structure ReadDispatchOutcome where
  retVal : JsVal
  readCommands : ReadCommandMap
  scheduled : Option ReadCommand

/-- PdalBindings::read, synchronous part (pdal-bindings.cpp lines 398-441
and 559): a null factory result returns Undefined with nothing registered
and nothing scheduled; otherwise the command is registered under the
generated identifier (before dispatch), its work is queued, and the entry
point returns Undefined — the identifier is not the return value. -/
def readDispatch (m : ReadCommandMap) (factoryResult : Option ReadCommand)
    (readId : String) : ReadDispatchOutcome :=
  match factoryResult with
  | none =>
      { retVal := JsVal.undefined
        readCommands := m
        scheduled := none }
  | some c =>
      { retVal := JsVal.undefined
        readCommands := registryAssign m readId c
        scheduled := some c }

/-! Concrete fixtures used by counterexamples and witnesses. -/

/-- a concrete raster grid. -/
def meta0 : RasterMeta :=
  { xBegin := 0, xStep := 2, yBegin := 0, yStep := 2, xNumV := 5, yNumV := 5 }

/-- a ready session (engine initialized). -/
def readyState0 : BindingsState :=
  { pdalSession := some
      { ready := true, numPointsF := 5, schemaF := "s", statsF := "st"
        srsF := "wkt", fillsF := [1, 2] } }

/-- an engine handle that never completed initialization. -/
def notReadyEngine0 : PdalSessionE :=
  { ready := false, numPointsF := 0, schemaF := "", statsF := ""
    srsF := "", fillsF := [] }

/-- a successfully-run raw read command (empty error message). -/
def cmdOk : ReadCommand :=
  { readId := "000000000000000000000000", rasterize := false, errMsg := ""
    numPoints := 3, numBytes := 24, rasterMeta := meta0, callbackId := 1 }

/-- a second read command that was (by collision) given the same identifier. -/
def cmdOk2 : ReadCommand :=
  { cmdOk with numPoints := 7, numBytes := 56, callbackId := 2 }

/-- a read command whose background run failed. -/
def cmdErr : ReadCommand :=
  { cmdOk with errMsg := "extraction failed" }

/-- the registry holding exactly `cmdOk`. -/
def regOne : ReadCommandMap :=
  registryAssign emptyReadCommands cmdOk.readId cmdOk

/-- the all-zeroes rand() stream. -/
def zeroStream : Nat → Nat := fun _ => 0

/-- the identifier every call of `generateReadId` produces under
`zeroStream`. -/
def collidingId : String := "000000000000000000000000"

/-! Helper facts about the argument checks. -/

/-- the check `v->IsUndefined() || !v->IsString()` is equivalent to
`!v->IsString()`: an undefined value is not a string. -/
theorem undefOrNotString (v : JsVal) :
    (v.isUndefined || !v.isString) = !v.isString := by
  cases v <;> rfl

/-- the check `v->IsUndefined() || !v->IsFunction()` is equivalent to
`!v->IsFunction()`: an undefined value is not a function. -/
theorem undefOrNotFunction (v : JsVal) :
    (v.isUndefined || !v.isFunction) = !v.isFunction := by
  cases v <;> rfl

/-- a value that is a string is not undefined. -/
theorem isString_not_undefined (v : JsVal) (h : v.isString = true) :
    v.isUndefined = false := by
  cases v <;> simp_all [JsVal.isString, JsVal.isUndefined]

/-- C8: for every rand() behaviour, a generated read identifier is a string
of exactly 24 characters, each drawn from the uppercase hexadecimal
alphabet 0-9, A-F. -/
theorem C8_generateReadId_format (randStream : Nat → Nat) :
    ( generateReadId randStream).length = 24 ∧
    ∀ ch ∈ ( generateReadId randStream).toList, ch ∈ hexValues.toList := by
  constructor
  · rfl
  · intro ch hch
    have hm : ch ∈ (List.range readIdSize).map
        (fun i => hexValues.toList.getD
          (randStream i % hexValues.toList.length) '0') := hch
    obtain ⟨i, _, rfl⟩ := List.mem_map.mp hm
    have hlt : randStream i % hexValues.toList.length
        < hexValues.toList.length :=
      Nat.mod_lt _ (by decide)
    rw [List.getD_eq_getElem _ _ hlt]
    exact List.getElem_mem hlt

/-- C9: destroy releases the engine handle immediately, and a second destroy
in a row is a no-op leaving the state unchanged; destroy is a total
function, so it never faults. -/
theorem C9_destroy_idempotent (s : BindingsState) :
    ( destroy s).pdalSession = none ∧ destroy ( destroy s) = destroy s :=
  ⟨rfl, rfl⟩

/-- C2: for each background work phase (create, serialize, read) and every
engine behaviour, the work phase is a total function into plain data — a
runtime error's message is stored as the error-message string — and the
completion phase invokes the callback exactly once with a normal result:
for create/serialize the single invocation carries the stored message, and
for read the single delivery is the error shape exactly when the stored
message is nonempty. -/
theorem C2_work_caught_completion_once
    (engineResult : Option EngineFault)
    (runResult : Except EngineFault ReadCommand)
    (d : CreateData) (sd : SerializeData) (c : ReadCommand) :
    ( createAfter ( createWork engineResult d)).callbackCalls
        = [( createWork engineResult d).errMsg] ∧
    ( serializeAfter ( serializeWork engineResult sd)).callbackCalls
        = [( serializeWork engineResult sd).errMsg] ∧
    (∀ em, ( createWork (some (EngineFault.runtimeError em)) d).errMsg = em) ∧
    (∀ em,
      ( readWork (Except.error (EngineFault.runtimeError em)) c).errMsg = em) ∧
    ( readAfterWork ( readWork runResult c)).delivery.length = 1 ∧
    (( readWork runResult c).errMsg ≠ "" →
      ( readAfterWork ( readWork runResult c)).delivery
        = [ReadDelivery.errorArgs ( readWork runResult c).errMsg]) := by
  refine ⟨rfl, rfl, fun em => rfl, fun em => rfl, ?_, ?_⟩
  · unfold readAfterWork
    split
    · rfl
    · split <;> rfl
  · intro h
    unfold readAfterWork
    rw [if_pos h]

/-- C6: an initialize request whose pipelineId or pipeline argument is not a
string (the callback itself being well formed) is rejected synchronously:
the outcome is a synchronous error report through the supplied callback
with a nonempty message — no task payload is built, no background work is
scheduled, and nothing is registered. -/
theorem C6_validation_sync_error
    (args : List JsVal) (execute : Bool) (fid : Nat)
    (hcb : args.getD 3 JsVal.undefined = JsVal.func fid)
    (hbad : (args.getD 0 JsVal.undefined).isString = false ∨
            (args.getD 1 JsVal.undefined).isString = false) :
    ∃ msg, msg ≠ "" ∧
      doInitialize args execute = InitOutcome.syncError fid msg := by
  have hcb2 : args[3]?.getD JsVal.undefined = JsVal.func fid := by
    simpa using hcb
  by_cases h1 : (args.getD 1 JsVal.undefined).isString = true
  · have h0 : (args.getD 0 JsVal.undefined).isString = false := by
      rcases hbad with h | h
      · exact h
      · rw [h1] at h
        cases h
    have h02 : (args[0]?.getD JsVal.undefined).isString = false := by
      simpa using h0
    have h12 : (args[1]?.getD JsVal.undefined).isString = true := by
      simpa using h1
    have h12u := isString_not_undefined _ h12
    have e1 : (JsVal.func fid).isUndefined = false := rfl
    have e2 : (JsVal.func fid).isFunction = true := rfl
    have e3 : (JsVal.func fid).funcId = fid := rfl
    refine ⟨"pipelineId must be a string - args[0]", by decide, ?_⟩
    simp [ doInitialize, hcb2, h02, h12, h12u, e1, e2, e3]
  · have h1f : (args.getD 1 JsVal.undefined).isString = false := by
      revert h1
      cases (args.getD 1 JsVal.undefined).isString <;> simp
    have h12f : (args[1]?.getD JsVal.undefined).isString = false := by
      simpa using h1f
    have e1 : (JsVal.func fid).isUndefined = false := rfl
    have e2 : (JsVal.func fid).isFunction = true := rfl
    have e3 : (JsVal.func fid).funcId = fid := rfl
    refine ⟨"pipeline must be a string - args[1]", by decide, ?_⟩
    simp [ doInitialize, hcb2, h12f, e1, e2, e3]

/-- C6 witness: a numeric pipelineId with a valid callback is reported
synchronously through that callback. -/
theorem C6_validation_sync_error_witness :
    ∃ msg, msg ≠ "" ∧
      doInitialize [JsVal.num 3, JsVal.str "p", JsVal.undefined,
          JsVal.func 7] true
        = InitOutcome.syncError 7 msg :=
  C6_validation_sync_error
    [JsVal.num 3, JsVal.str "p", JsVal.undefined, JsVal.func 7] true 7 rfl
    (Or.inl rfl)

/-- C10: a create, parse, or serialize call whose callback argument is
undefined or not a function throws a synchronous fault back to the caller:
the outcome is the thrown constructor (nothing is reported through any
callback), no background work is scheduled, and — for parse — the session
state is left untouched because the reset line is never reached. -/
theorem C10_invalid_callback_throws
    (args sArgs : List JsVal) (s : BindingsState)
    (hcb : (args.getD 3 JsVal.undefined).isFunction = false)
    (hscb : (sArgs.getD 1 JsVal.undefined).isFunction = false) :
    createEntry args
      = InitOutcome.thrown "Invalid callback supplied to create" ∧
    parseEntry s args
      = (InitOutcome.thrown "Invalid callback supplied to create", s) ∧
    serializeEntry sArgs
      = SerializeOutcome.thrown "Invalid callback supplied to serialize" := by
  have hcb2 : (args[3]?.getD JsVal.undefined).isFunction = false := by
    simpa using hcb
  have hscb2 : (sArgs[1]?.getD JsVal.undefined).isFunction = false := by
    simpa using hscb
  have hc : ∀ e, doInitialize args e
      = InitOutcome.thrown "Invalid callback supplied to create" := by
    intro e
    simp [ doInitialize, hcb2]
  refine ⟨hc true, ?_, ?_⟩
  · unfold parseEntry
    rw [hc false]
  · simp [serializeEntry, hscb2]

/-- C10 witness: an empty argument vector (all arguments undefined) makes
create, parse and serialize throw, and parse leaves the session intact. -/
theorem C10_invalid_callback_throws_witness :
    createEntry []
      = InitOutcome.thrown "Invalid callback supplied to create" ∧
    parseEntry readyState0 []
      = (InitOutcome.thrown "Invalid callback supplied to create",
          readyState0) ∧
    serializeEntry [JsVal.str "p"]
      = SerializeOutcome.thrown "Invalid callback supplied to serialize" :=
  C10_invalid_callback_throws [] [JsVal.str "p"] readyState0 rfl rfl

/-- C1 counterexample: for a registered read command whose background run
succeeded, the completion phase neither erases it from the registry nor
destroys it — immediately after delivery the command is still present, so
the claimed absent-after-delivery/cleanup-on-every-path invariant fails on
the success path. -/
theorem C1_success_no_cleanup_cex :
    cmdOk.errMsg = "" ∧
    ( readCommandsAfterDelivery regOne cmdOk) cmdOk.readId = some cmdOk ∧
    ( readAfterWork cmdOk).erasedSelf = false ∧
    ( readAfterWork cmdOk).commandDeleted = false := by decide

/-- C1 as amended: the command is registered before its work is dispatched
and present until its delivery callback runs; on the error completion path
registry removal, callback handle release (inside the spec-modelled
`errorCallback`) and command destruction execute exactly once, leaving the
command absent; on the success completion path the callback handle is
released, while the command remains registered and is not destroyed — its
removal and destruction are deferred to the later send code outside this
function. -/
theorem C1_cleanup_by_path (m : ReadCommandMap) (c : ReadCommand) :
    ( readDispatch m (some c) c.readId).readCommands c.readId = some c ∧
    (c.errMsg ≠ "" →
      ( readAfterWork c).erasedSelf = true ∧
      ( readAfterWork c).commandDeleted = true ∧
      ( readAfterWork c).callbackDisposed = true ∧
      ( readCommandsAfterDelivery
          (( readDispatch m (some c) c.readId).readCommands) c)
        c.readId = none) ∧
    (c.errMsg = "" →
      ( readAfterWork c).erasedSelf = false ∧
      ( readAfterWork c).commandDeleted = false ∧
      ( readAfterWork c).callbackDisposed = true ∧
      ( readCommandsAfterDelivery
          (( readDispatch m (some c) c.readId).readCommands) c)
        c.readId = some c) := by
  refine ⟨by simp [readDispatch, registryAssign], ?_, ?_⟩
  · intro h
    have ha : readAfterWork c =
        { delivery := [ReadDelivery.errorArgs c.errMsg]
          erasedSelf := true
          commandDeleted := true
          callbackDisposed := errorCallbackDisposes
          reqDeleted := false } := by
      unfold readAfterWork
      rw [if_pos h]
    refine ⟨by rw [ha], by rw [ha], by rw [ha]; rfl, ?_⟩
    unfold readCommandsAfterDelivery
    rw [ha]
    simp [readDispatch, registryAssign, registryErase]
  · intro h
    have hn : ¬ c.errMsg ≠ "" := by simp [h]
    have he : ( readAfterWork c).erasedSelf = false := by
      unfold readAfterWork
      rw [if_neg hn]
      by_cases hr : c.rasterize = true
      · rw [if_pos hr]
      · rw [if_neg hr]
    have hd : ( readAfterWork c).commandDeleted = false := by
      unfold readAfterWork
      rw [if_neg hn]
      by_cases hr : c.rasterize = true
      · rw [if_pos hr]
      · rw [if_neg hr]
    have hcb : ( readAfterWork c).callbackDisposed = true := by
      unfold readAfterWork
      rw [if_neg hn]
      by_cases hr : c.rasterize = true
      · rw [if_pos hr]
      · rw [if_neg hr]
    refine ⟨he, hd, hcb, ?_⟩
    unfold readCommandsAfterDelivery
    rw [he]
    simp [readDispatch, registryAssign]

/-- C3 counterexample: a synchronous query after destroy does not produce
an error report — it faults on the released (null) engine handle. -/
theorem C3_afterDestroy_fault_cex :
    ( getNumPoints ( destroy readyState0)).isErrorReport = false ∧
    getNumPoints ( destroy readyState0)
      = SyncOutcome.fault "null m_pdalSession dereferenced" := by decide

/-- C3 as amended: the synchronous queries perform no state check — after
destroy has released the engine handle, every one of the five queries
dereferences the null handle and faults, and on a not-yet-Ready engine the
precondition exception propagates uncaught as a fault; in neither non-Ready
situation is an error reported through the normal channel. -/
theorem C3_syncQueries_fault_outside_ready
    (s : BindingsState) (e : PdalSessionE)
    (hnull : s.pdalSession = none) (hnr : e.ready = false) :
    getNumPoints s = SyncOutcome.fault "null m_pdalSession dereferenced" ∧
    getSchema s = SyncOutcome.fault "null m_pdalSession dereferenced" ∧
    getStats s = SyncOutcome.fault "null m_pdalSession dereferenced" ∧
    getSrs s = SyncOutcome.fault "null m_pdalSession dereferenced" ∧
    getFills s = SyncOutcome.fault "null m_pdalSession dereferenced" ∧
    getNumPoints { pdalSession := some e }
      = SyncOutcome.fault "session not ready" ∧
    ( getNumPoints { pdalSession := some e }).isErrorReport = false := by
  cases s with
  | mk ps =>
    cases hnull
    refine ⟨rfl, rfl, rfl, rfl, rfl, ?_, ?_⟩
    · simp [getNumPoints, PdalSessionE.getNumPoints, hnr]
    · simp [getNumPoints, PdalSessionE.getNumPoints, hnr,
        SyncOutcome.isErrorReport]

/-- C3 witness: the amended statement at the destroyed ready session and a
concrete engine that never completed initialization. -/
theorem C3_syncQueries_fault_outside_ready_witness :
    getNumPoints ( destroy readyState0)
      = SyncOutcome.fault "null m_pdalSession dereferenced" ∧
    getSchema ( destroy readyState0)
      = SyncOutcome.fault "null m_pdalSession dereferenced" ∧
    getStats ( destroy readyState0)
      = SyncOutcome.fault "null m_pdalSession dereferenced" ∧
    getSrs ( destroy readyState0)
      = SyncOutcome.fault "null m_pdalSession dereferenced" ∧
    getFills ( destroy readyState0)
      = SyncOutcome.fault "null m_pdalSession dereferenced" ∧
    getNumPoints { pdalSession := some notReadyEngine0 }
      = SyncOutcome.fault "session not ready" ∧
    ( getNumPoints { pdalSession := some notReadyEngine0 }).isErrorReport
      = false :=
  C3_syncQueries_fault_outside_ready ( destroy readyState0) notReadyEngine0
    rfl rfl

/-- C4 counterexample: the identifier of `cmdOk` is already present in the
registry, yet inserting `cmdOk2` under the same identifier succeeds and
silently replaces the existing entry. -/
theorem C4_insert_overwrites_cex :
    regOne cmdOk.readId = some cmdOk ∧
    ( registryAssign regOne cmdOk.readId cmdOk2) cmdOk.readId = some cmdOk2 ∧
    cmdOk2 ≠ cmdOk := by decide

/-- C4 as amended: registration is an unconditional map assignment — it
always stores the command under the identifier, replacing any existing
entry under that identifier, and leaves every other key unchanged; there is
no duplicate-identifier failure. -/
theorem C4_assign_unconditional
    (m : ReadCommandMap) (id : String) (c : ReadCommand) :
    ( registryAssign m id c) id = some c ∧
    ∀ k, k ≠ id → ( registryAssign m id c) k = m k := by
  constructor
  · simp [registryAssign]
  · intro k hk
    simp [registryAssign, hk]

/-- C5 counterexample: a successfully dispatched read hands Undefined back
to its caller, not the generated identifier. -/
theorem C5_returns_undefined_cex :
    ( readDispatch emptyReadCommands (some cmdOk) cmdOk.readId).retVal
      = JsVal.undefined ∧
    JsVal.undefined ≠ JsVal.str cmdOk.readId :=
  ⟨rfl, fun h => JsVal.noConfusion h⟩

/-- C5 as amended: the read entry point always returns Undefined to its
caller; the freshly generated identifier reaches the caller only as the
identifier argument of the success delivery callback (rastered or raw). -/
theorem C5_id_delivered_via_callback
    (m : ReadCommandMap) (c : ReadCommand) (h : c.errMsg = "") :
    ( readDispatch m (some c) c.readId).retVal = JsVal.undefined ∧
    ( readDispatch m (some c) c.readId).scheduled = some c ∧
    (( readAfterWork c).delivery
        = [ReadDelivery.rasteredArgs c.readId c.numPoints c.numBytes
            c.rasterMeta] ∨
      ( readAfterWork c).delivery
        = [ReadDelivery.rawArgs c.readId c.numPoints c.numBytes]) := by
  refine ⟨rfl, rfl, ?_⟩
  have hn : ¬ c.errMsg ≠ "" := by simp [h]
  unfold readAfterWork
  rw [if_neg hn]
  by_cases hr : c.rasterize = true
  · rw [if_pos hr]
    left
    rfl
  · rw [if_neg hr]
    right
    rfl

/-- C5 witness: the amended statement at the concrete command `cmdOk`. -/
theorem C5_id_delivered_via_callback_witness :
    ( readDispatch emptyReadCommands (some cmdOk) cmdOk.readId).retVal
      = JsVal.undefined ∧
    ( readDispatch emptyReadCommands (some cmdOk) cmdOk.readId).scheduled
      = some cmdOk ∧
    (( readAfterWork cmdOk).delivery
        = [ReadDelivery.rasteredArgs cmdOk.readId cmdOk.numPoints
            cmdOk.numBytes cmdOk.rasterMeta] ∨
      ( readAfterWork cmdOk).delivery
        = [ReadDelivery.rawArgs cmdOk.readId cmdOk.numPoints
            cmdOk.numBytes]) :=
  C5_id_delivered_via_callback emptyReadCommands cmdOk rfl

/-- C7 counterexample: under the all-zeroes rand() behaviour the first and
the second generated identifiers coincide, and registration does not reject
the collision — the second assignment silently replaces the first entry. -/
theorem C7_collision_not_rejected_cex :
    generateReadId zeroStream = collidingId ∧
    generateReadId (fun i => zeroStream (i + readIdSize)) = collidingId ∧
    ( registryAssign regOne cmdOk.readId cmdOk2) cmdOk.readId
      = some cmdOk2 ∧
    cmdOk2 ≠ cmdOk := by decide

/-- C7 as amended: identifier generation draws 24 independent rand() values
with no uniqueness guarantee, so a rand() behaviour exists under which two
consecutively generated identifiers are equal; and registration never
detects a collision — assigning a second command under an identifier
already in use silently replaces the first registry entry. -/
theorem C7_collision_possible_and_overwritten
    (m : ReadCommandMap) (id : String) (c1 c2 : ReadCommand) :
    (∃ r : Nat → Nat,
      generateReadId r = generateReadId (fun i => r (i + readIdSize))) ∧
    ( registryAssign ( registryAssign m id c1) id c2) id = some c2 := by
  constructor
  · exact ⟨zeroStream, by decide⟩
  · simp [registryAssign]

end Greyhound
